import Mathlib

/-!
Verification of the Fagun AI-powered Playwright test generator.

This file shallowly embeds the pure decision logic of the repository's
Python modules and proves (or refutes) the frozen specification claims
about them.  Each embedded definition is translated from the Python
source; "spec-side" definitions used for refinement comparisons are
named with a `claim` or `spec` marker.

Embedding conventions:
* Python strings are Lean `String`s; the Python substring operator
  `needle in haystack` is embedded as infix-of on the character lists.
* Python truthiness of an `Optional[int]` (`if field.min_length:`) is
  `none`/`some 0` falsy, any other `some n` truthy.
* Python `dict[key]` lookup (which raises `KeyError` when missing) is
  embedded as an `Option`-valued association-list lookup; a method that
  can raise returns `Option`/`Except`, with `none`/`.error` marking the
  raised exception, produced before any state mutation, exactly where
  the Python statement order raises.
* Python float division of small integer counts (success rates) is
  embedded as exact rational division in `ℚ`.
-/

/-- Embedding of Python's substring test `pat in s`. -/
def strContains (s pat : String) : Bool :=
  decide (pat.toList <:+: s.toList)

/-- Executable embedding of Python's `str.lower` (character-wise, which
is what `str.lower` does on the ASCII strings handled here). -/
def strToLower (s : String) : String :=
  String.mk (s.toList.map Char.toLower)

/-! ## APIManager (Fagun.py) -/

/-- The two LLM providers of `APIManager`. -/
inductive Provider
  | gemini
  | grok
  deriving DecidableEq, Repr

/-- State of `APIManager`: whether each key is configured, and the
current provider (`__init__` starts at `gemini`). -/
structure APIManagerState where
  gemini_key : Bool
  grok_key : Bool
  current_provider : Provider
  deriving DecidableEq, Repr

/-- The literal quota indicators of `handle_quota_error`. -/
def quota_indicators : List String :=
  ["quota", "limit", "exceeded", "rate limit", "too many requests", "429"]

/-- Embedding of `APIManager.handle_quota_error`: lowercase the message,
scan for a quota indicator, and flip to the other provider when that
provider's key is configured (`switch_to_grok` / `switch_to_gemini` are
guarded by the key checks).  Returns the boolean result and the state
after the call. -/
def handle_quota_error (st : APIManagerState) (error_message : String) :
    Bool × APIManagerState :=
  let error_lower := strToLower error_message
  if quota_indicators.any (fun ind => strContains error_lower ind) then
    if st.current_provider = Provider.gemini ∧ st.grok_key then
      (true, { st with current_provider := Provider.grok })
    else if st.current_provider = Provider.grok ∧ st.gemini_key then
      (true, { st with current_provider := Provider.gemini })
    else
      (false, st)
  else
    (false, st)

/-- The provider other than the given one. -/
def otherProvider : Provider → Provider
  | Provider.gemini => Provider.grok
  | Provider.grok => Provider.gemini

/-- Whether the key of the *other* provider is configured. -/
def otherKeyConfigured (st : APIManagerState) : Bool :=
  match st.current_provider with
  | Provider.gemini => st.grok_key
  | Provider.grok => st.gemini_key

/-! ## IntelligentFormTester._evaluate_test_result
(src/utils/intelligent_form_testing.py) -/

/-- Embedding of `IntelligentFormTester._evaluate_test_result`, keyed on
the scenario's `expected_result` and the observed `actual_result`. -/
def evaluate_test_result (expected_result actual_result : String) : Bool :=
  if expected_result == "success" then
    actual_result == "success"
  else if expected_result == "validation_error" then
    ["validation_error", "required_error"].contains actual_result
  else if expected_result == "security_error" then
    actual_result == "security_error"
  else if expected_result == "authentication_error" then
    ["validation_error", "authentication_error"].contains actual_result
  else
    false

/-- The claimed pass predicate, written from the claim's words: the
expected category matches the actual one, widened per the claim's table
(including the claimed widening for expected `required_error`). -/
def claimEvaluate (expected_result actual_result : String) : Bool :=
  (expected_result == actual_result &&
    ["success", "validation_error", "required_error", "security_error",
      "authentication_error"].contains expected_result) ||
  (expected_result == "validation_error" && actual_result == "required_error") ||
  (expected_result == "authentication_error" && actual_result == "validation_error") ||
  (expected_result == "required_error" && actual_result == "validation_error")

/-- Whether the lowercased message contains a quota indicator. -/
def isQuotaMessage (msg : String) : Bool :=
  quota_indicators.any (fun ind => strContains (strToLower msg) ind)

/-! ## CredentialManager (src/utils/credential_manager.py) -/

/-- Embedding of Python's `str.split(sep)` for a single-character
separator, on character lists. -/
def splitChar (sep : Char) : List Char → List (List Char)
  | [] => [[]]
  | c :: cs =>
    if c = sep then [] :: splitChar sep cs
    else
      match splitChar sep cs with
      | [] => [[c]]
      | p :: ps => (c :: p) :: ps

/-- Embedding of `CredentialManager._validate_credentials`:
`"@" in email and "." in email.split("@")[-1]` and
`len(password) >= 8`. -/
def validate_credentials (email password : String) : Bool :=
  let email_valid := strContains email "@" &&
    strContains (String.mk ((splitChar '@' email.toList).getLastD [])) "."
  let password_valid := decide (password.length ≥ 8)
  email_valid && password_valid

/-- Spec-side reading of "the part after the last `@`" (the whole
string when there is no `@`): the longest `@`-free suffix. -/
def afterLastAt (email : List Char) : List Char :=
  (email.reverse.takeWhile (fun c => !(c == '@'))).reverse

/-- `success_indicators` of `_analyze_credential_response`. -/
def success_indicators : List String :=
  ["welcome", "dashboard", "profile", "account", "logged in",
   "signed in", "success", "thank you", "confirmation"]

/-- `validation_indicators` of `_analyze_credential_response`. -/
def validation_indicators : List String :=
  ["invalid", "incorrect", "wrong", "error", "failed",
   "required", "missing", "format", "invalid email",
   "invalid password", "password too short"]

/-- `security_indicators` of `_analyze_credential_response`. -/
def security_indicators : List String :=
  ["security", "blocked", "suspicious", "malicious",
   "injection", "script", "xss", "sql", "forbidden"]

/-- `auth_indicators` of `_analyze_credential_response`. -/
def auth_indicators : List String :=
  ["not found", "user not found", "account not found",
   "login failed", "authentication failed", "access denied"]

/-- Embedding of `CredentialManager._analyze_credential_response` on the
fetched page content: lowercase, then check the four indicator families
in order, returning at the first family with a matching keyword. -/
def analyze_credential_response (page_content : String) : String :=
  let page_text := strToLower page_content
  if success_indicators.any (fun ind => strContains page_text ind) then
    "success"
  else if validation_indicators.any (fun ind => strContains page_text ind) then
    "validation_error"
  else if security_indicators.any (fun ind => strContains page_text ind) then
    "security_error"
  else if auth_indicators.any (fun ind => strContains page_text ind) then
    "authentication_error"
  else
    "unknown"

/-! ## ErrorMonitor._determine_severity (src/utils/error_monitor.py) -/

/-- The `severity_map` literal of `ErrorMonitor._determine_severity`. -/
def severity_map : List (String × String) :=
  [("javascript_error", "high"),
   ("unhandled_promise_rejection", "high"),
   ("console_error", "medium"),
   ("console_warning", "low"),
   ("resource_error", "medium"),
   ("fetch_error", "medium"),
   ("xhr_error", "medium"),
   ("performance_issue", "low"),
   ("network_error", "high"),
   ("network_failure", "high")]

/-- Embedding of `ErrorMonitor._determine_severity`:
`severity_map.get(error_type, 'medium')`. -/
def determine_severity (error_type : String) : String :=
  ((severity_map.find? (fun p => p.1 == error_type)).map Prod.snd).getD "medium"

/-! ## TestReportGenerator (Fagun.py) -/

/-- One finding, as built by `TestReportGenerator.add_finding`
(`timestamp` is wall-clock and not modelled). -/
structure Finding where
  id : Nat
  title : String
  description : String
  severity : String
  location : Option String
  deriving DecidableEq, Repr

/-- The 13 finding categories initialized by
`TestReportGenerator.__init__` under `test_results['findings']`. -/
inductive Category
  | errors
  | bugs
  | grammatical_errors
  | broken_urls
  | performance_issues
  | accessibility_issues
  | security_concerns
  | ui_issues
  | functionality_issues
  | responsive_issues
  | cross_browser_issues
  | form_issues
  | navigation_issues
  deriving DecidableEq, Repr

/-- The 13 categories, in initialization order. -/
def allCategories : List Category :=
  [Category.errors, Category.bugs, Category.grammatical_errors,
   Category.broken_urls, Category.performance_issues,
   Category.accessibility_issues, Category.security_concerns,
   Category.ui_issues, Category.functionality_issues,
   Category.responsive_issues, Category.cross_browser_issues,
   Category.form_issues, Category.navigation_issues]

/-- The slice of `test_results` that `add_finding` touches: the
per-category finding lists and `summary['total_findings']`. -/
structure ReportState where
  findings : Category → List Finding
  total_findings : Nat

/-- `__init__`: every category list empty, `total_findings = 0`. -/
def initReport : ReportState :=
  { findings := fun _ => [], total_findings := 0 }

/-- Embedding of `TestReportGenerator.add_finding`: build the finding
with `id = len(findings[category]) + 1`, append it to its category list
and increment `summary['total_findings']`. -/
def add_finding (st : ReportState) (category : Category)
    (title description severity : String) (location : Option String) :
    ReportState :=
  let finding : Finding :=
    { id := (st.findings category).length + 1,
      title := title, description := description,
      severity := severity, location := location }
  { findings := fun c =>
      if c = category then st.findings category ++ [finding]
      else st.findings c,
    total_findings := st.total_findings + 1 }

/-- The arguments of one `add_finding` call. -/
structure FindingCall where
  category : Category
  title : String
  description : String
  severity : String
  location : Option String
  deriving DecidableEq, Repr

/-- Run a sequence of `add_finding` calls from a starting state. -/
def runFindings : ReportState → List FindingCall → ReportState
  | st, [] => st
  | st, k :: ks =>
    runFindings
      (add_finding st k.category k.title k.description k.severity k.location)
      ks

/-- Total number of finding entries across all 13 categories. -/
def sumFindings (st : ReportState) : Nat :=
  (allCategories.map (fun c => (st.findings c).length)).sum

/-! ### add_finding with a string-keyed dict (for the KeyError claim) -/

/-- The 13 literal keys of `test_results['findings']`. -/
def findings_categories : List String :=
  ["errors", "bugs", "grammatical_errors", "broken_urls",
   "performance_issues", "accessibility_issues", "security_concerns",
   "ui_issues", "functionality_issues", "responsive_issues",
   "cross_browser_issues", "form_issues", "navigation_issues"]

/-- String-keyed variant of the report state, mirroring the Python dict
`test_results['findings']` so that lookup of an uninitialized key can
fail. -/
structure ReportStateS where
  findings : List (String × List Finding)
  total_findings : Nat
  deriving DecidableEq, Repr

/-- `__init__` of the string-keyed state. -/
def initReportS : ReportStateS :=
  { findings := findings_categories.map (fun c => (c, [])),
    total_findings := 0 }

/-- Python `dict[key]` lookup: `none` means `KeyError`. -/
def dictLookup (m : List (String × List Finding)) (k : String) :
    Option (List Finding) :=
  (m.find? (fun p => p.1 == k)).map Prod.snd

/-- Replace the value stored under an existing key. -/
def dictSet (m : List (String × List Finding)) (k : String)
    (v : List Finding) : List (String × List Finding) :=
  m.map (fun p => if p.1 == k then (p.1, v) else p)

/-- Embedding of `TestReportGenerator.add_finding` on the string-keyed
state, following the Python statement order: the dict lookup
`self.test_results['findings'][category]` (evaluated while building the
`finding` literal, before any assignment) raises `KeyError` — modelled
as `none` — when the category is not a key, so on that path no list is
appended and `total_findings` is not incremented. -/
def add_finding_dyn (st : ReportStateS) (category title description
    severity : String) (location : Option String) : Option ReportStateS :=
  match dictLookup st.findings category with
  | none => none
  | some l =>
    let finding : Finding :=
      { id := l.length + 1, title := title, description := description,
        severity := severity, location := location }
    some { findings := dictSet st.findings category (l ++ [finding]),
           total_findings := st.total_findings + 1 }

/-! ## IntelligentFormTester._generate_boundary_scenarios
(src/utils/intelligent_form_testing.py) -/

/-- The `FormField` dataclass (the live `element` handle is not
modelled; lengths are the non-negative ints of discovered fields). -/
structure FormField where
  field_type : String
  name : String
  placeholder : String
  required : Bool
  validation_pattern : Option String
  min_length : Option Nat
  max_length : Option Nat
  options : List String
  deriving DecidableEq, Repr

/-- The `TestScenario` dataclass (`data` is the field-name/value map). -/
structure TestScenario where
  name : String
  data : List (String × String)
  expected_result : String
  description : String
  priority : Nat
  deriving DecidableEq, Repr

/-- Python truthiness of an `Optional[int]`: `None` and `0` are falsy. -/
def truthyNat : Option Nat → Bool
  | none => false
  | some n => n != 0

/-- Python `"a" * n`. -/
def repA (n : Nat) : String :=
  String.mk (List.replicate n 'a')

/-- Embedding of
`IntelligentFormTester._generate_boundary_scenarios`: two scenarios
when `field.min_length` is truthy (one character below the minimum
expecting `validation_error`, exactly the minimum expecting
`success`), then two more when `field.max_length` is truthy (exactly
the maximum expecting `success`, one character above expecting
`validation_error`). -/
def generate_boundary_scenarios (field : FormField) : List TestScenario :=
  (if truthyNat field.min_length then
    [{ name := "Min Length - " ++ field.name,
       data := [(field.name, repA (field.min_length.getD 0 - 1))],
       expected_result := "validation_error",
       description := "Test with length below minimum (" ++
         toString (field.min_length.getD 0 - 1) ++ ")",
       priority := 1 },
     { name := "Exact Min Length - " ++ field.name,
       data := [(field.name, repA (field.min_length.getD 0))],
       expected_result := "success",
       description := "Test with exact minimum length (" ++
         toString (field.min_length.getD 0) ++ ")",
       priority := 1 }]
   else []) ++
  (if truthyNat field.max_length then
    [{ name := "Exact Max Length - " ++ field.name,
       data := [(field.name, repA (field.max_length.getD 0))],
       expected_result := "success",
       description := "Test with exact maximum length (" ++
         toString (field.max_length.getD 0) ++ ")",
       priority := 1 },
     { name := "Exceed Max Length - " ++ field.name,
       data := [(field.name, repA (field.max_length.getD 0 + 1))],
       expected_result := "validation_error",
       description := "Test with length exceeding maximum (" ++
         toString (field.max_length.getD 0 + 1) ++ ")",
       priority := 1 }]
   else [])

/-! ## AdvancedTestingEngine.check_broken_urls
(src/utils/advanced_testing.py) -/

/-- Embedding of Python's `s.startswith(pre)`. -/
def strStartsWith (s pre : String) : Bool :=
  decide (pre.toList <+: s.toList)

/-- A discovered anchor element: its `href` attribute (`none` when
`get_attribute` returns None) and its inner text. -/
structure Link where
  href : Option String
  text : String
  deriving DecidableEq, Repr

/-- What the network does for one URL: an HTTP status with an optional
`Location` target, or a raised `requests` exception with its text. -/
inductive HttpAnswer
  | ans (status : Nat) (location : Option String)
  | exc (msg : String)
  deriving DecidableEq, Repr

/-- Model of `requests.get(url, timeout=10, allow_redirects=True)` over
an abstract server: a 3xx response with a `Location` is followed (up to
the library's 30-redirect bound, after which `TooManyRedirects` — a
`RequestException` — is raised); the result is the *final* status code
and final URL, exactly what `response.status_code` / `response.url`
hold after redirects are resolved. -/
def requestsGet (server : String → HttpAnswer) :
    Nat → String → Except String (Nat × String)
  | 0, _ => Except.error "Exceeded 30 redirects"
  | fuel + 1, url =>
    match server url with
    | HttpAnswer.exc m => Except.error m
    | HttpAnswer.ans status loc =>
      if 300 ≤ status ∧ status < 400 then
        match loc with
        | some l => requestsGet server fuel l
        | none => Except.ok (status, url)
      else
        Except.ok (status, url)

/-- One emitted `TestResult` of `check_broken_urls`, restricted to the
fields the method populates (`test_type` is always `BROKEN_URL`; the
fixed `recommendations` lists are omitted); the `details` dict entries
become the `url`/`status_code`/`redirect_url`/`error`/`link_text`
fields. -/
structure UrlResult where
  test_name : String
  status : String
  description : String
  url : String
  status_code : Option Nat
  redirect_url : Option String
  error : Option String
  link_text : String
  deriving DecidableEq, Repr

/-- `await link.inner_text() or "No text"`. -/
def linkTextOr (t : String) : String :=
  if t = "" then "No text" else t

/-- The per-URL probe of `check_broken_urls`: status ≥ 400 → FAILED
"Broken URL"; else status ≥ 300 → WARNING "Redirect URL"; else no
result; a `RequestException` → FAILED "Unreachable URL" with the
exception text in the details. -/
def probeUrl (server : String → HttpAnswer) (href text : String) :
    List UrlResult :=
  match requestsGet server 30 href with
  | Except.error e =>
    [{ test_name := "Unreachable URL", status := "FAILED",
       description := "Unreachable URL: " ++ href,
       url := href, status_code := none, redirect_url := none,
       error := some e, link_text := linkTextOr text }]
  | Except.ok (status_code, final_url) =>
    if 400 ≤ status_code then
      [{ test_name := "Broken URL", status := "FAILED",
         description := "Broken URL found: " ++ href,
         url := href, status_code := some status_code,
         redirect_url := none, error := none,
         link_text := linkTextOr text }]
    else if 300 ≤ status_code then
      [{ test_name := "Redirect URL", status := "WARNING",
         description := "URL redirects: " ++ href,
         url := href, status_code := some status_code,
         redirect_url := some final_url, error := none,
         link_text := linkTextOr text }]
    else []

/-- `f"{page.url.split('/')[0]}//{page.url.split('/')[2]}"` (indexing a
well-formed `scheme://host/...` URL; `getD` stands in for the list
indexing, which cannot fail on such URLs). -/
def pageOrigin (pageUrl : String) : String :=
  String.mk ((splitChar '/' pageUrl.toList).getD 0 []) ++ "//" ++
    String.mk ((splitChar '/' pageUrl.toList).getD 2 [])

/-- The per-link body of `check_broken_urls`: skip when `href` is
absent or empty (Python `if href:`); resolve root-relative hrefs
against the page origin; skip fragment-only and non-HTTP hrefs; probe
the rest. -/
def check_link (pageUrl : String) (server : String → HttpAnswer)
    (link : Link) : List UrlResult :=
  match link.href with
  | none => []
  | some href =>
    if href = "" then []
    else if strStartsWith href "/" then
      probeUrl server (pageOrigin pageUrl ++ href) link.text
    else if strStartsWith href "#" then []
    else if !(strStartsWith href "http") then []
    else probeUrl server href link.text

/-- Embedding of `AdvancedTestingEngine.check_broken_urls` over the
page's anchor list and an abstract network. -/
def check_broken_urls (pageUrl : String) (links : List Link)
    (server : String → HttpAnswer) : List UrlResult :=
  links.flatMap (check_link pageUrl server)

/-- A two-URL server for the redirect counterexample: `/old` answers
301 with `Location: /new`; every other URL (in particular `/new`)
answers 200. -/
def srv301 : String → HttpAnswer := fun u =>
  if u = "https://site.example/old" then
    HttpAnswer.ans 301 (some "https://site.example/new")
  else
    HttpAnswer.ans 200 none

/-! ## CredentialManager._generate_credential_recommendations
(src/utils/credential_manager.py) -/

/-- The `CredentialSet` dataclass (`created_at` modelled as a tick). -/
structure CredentialSet where
  name : String
  email : String
  password : String
  description : String
  is_valid : Bool
  category : String
  created_at : Nat
  deriving DecidableEq, Repr

/-- The `CredentialTestResult` dataclass (`screenshot_path` and the
wall-clock `timestamp` are not read by the recommendation logic and
are not modelled). -/
structure CredentialTestResult where
  credential_set : CredentialSet
  success : Bool
  response_type : String
  error_message : Option String
  deriving DecidableEq, Repr

/-- The fixed recommendation strings. -/
def noResultsRec : String := "No test results available for recommendations"

/-- Warning emitted when valid credentials under-perform. -/
def validWarn : String :=
  "⚠️ Valid credentials are not working properly. Check authentication system."

/-- Warning emitted when invalid credentials are under-rejected. -/
def rejWarn : String :=
  "🔒 Invalid credentials are not being properly rejected. Improve validation."

/-- Warning emitted when security probes succeed too often. -/
def secWarn : String :=
  "🚨 Security tests are passing when they should fail. Implement proper input sanitization."

/-- Warning emitted when some response was classified unknown. -/
def unkWarn : String :=
  "❓ Some tests returned unknown responses. Improve error handling and user feedback."

/-- The all-good message. -/
def allGood : String := "✅ All credential tests are working as expected!"

/-- Embedding of
`CredentialManager._generate_credential_recommendations`: success
rates are Python float divisions of small counts, embedded as exact
rational division; a rate over an empty bucket is the ternary's `0`. -/
def generate_credential_recommendations
    (test_results : List CredentialTestResult) : List String :=
  if test_results.isEmpty then [noResultsRec]
  else
    let valid_creds := test_results.filter (fun r => r.credential_set.is_valid)
    let invalid_creds := test_results.filter (fun r => !r.credential_set.is_valid)
    let valid_success_rate : ℚ :=
      if !valid_creds.isEmpty then
        ((valid_creds.filter (fun r => r.success)).length : ℚ) /
          (valid_creds.length : ℚ)
      else 0
    let recs1 : List String :=
      if valid_success_rate < 0.5 then [validWarn] else []
    let invalid_rejection_rate : ℚ :=
      if !invalid_creds.isEmpty then
        ((invalid_creds.filter (fun r => !r.success)).length : ℚ) /
          (invalid_creds.length : ℚ)
      else 0
    let recs2 := recs1 ++
      (if invalid_rejection_rate < 0.8 then [rejWarn] else [])
    let security_tests :=
      test_results.filter (fun r => r.credential_set.category == "security_test")
    let recs3 := recs2 ++
      (if !security_tests.isEmpty then
        (if (0.3 : ℚ) <
            ((security_tests.filter (fun r => r.success)).length : ℚ) /
              (security_tests.length : ℚ) then [secWarn] else [])
       else [])
    let recs4 := recs3 ++
      (if (test_results.map (fun r => r.response_type)).contains "unknown" then
        [unkWarn] else [])
    if recs4.isEmpty then [allGood] else recs4

/-- Amended condition for the valid-credential warning: no valid-cred
results at all (the ternary's 0 rate), or strictly fewer than half of
them succeed. -/
def validWarnCond (rs : List CredentialTestResult) : Bool :=
  (rs.filter (fun r => r.credential_set.is_valid)).isEmpty ||
  decide (2 * ((rs.filter (fun r => r.credential_set.is_valid)).filter
      (fun r => r.success)).length <
    (rs.filter (fun r => r.credential_set.is_valid)).length)

/-- Amended condition for the rejection warning: no invalid-cred
results at all, or strictly fewer than 80% of them are unsuccessful. -/
def rejWarnCond (rs : List CredentialTestResult) : Bool :=
  (rs.filter (fun r => !r.credential_set.is_valid)).isEmpty ||
  decide (5 * ((rs.filter (fun r => !r.credential_set.is_valid)).filter
      (fun r => !r.success)).length <
    4 * (rs.filter (fun r => !r.credential_set.is_valid)).length)

/-- Condition for the sanitization warning: some `security_test`
results exist and strictly more than 30% of them succeed. -/
def secWarnCond (rs : List CredentialTestResult) : Bool :=
  !(rs.filter (fun r => r.credential_set.category == "security_test")).isEmpty &&
  decide (3 * (rs.filter (fun r => r.credential_set.category == "security_test")).length <
    10 * ((rs.filter (fun r => r.credential_set.category == "security_test")).filter
      (fun r => r.success)).length)

/-- Condition for the unknown-response warning. -/
def unkWarnCond (rs : List CredentialTestResult) : Bool :=
  (rs.map (fun r => r.response_type)).contains "unknown"

/-! # Theorems -/

/-- C1 counterexample: with `current_provider = gemini` and only the
grok key configured (exactly one key), `handle_quota_error "quota"`
*does* flip the provider and return true, refuting the claim's final
clause that with only one key configured it never flips and always
returns false. -/
theorem handle_quota_error_one_key_flips :
    (handle_quota_error ⟨false, true, Provider.gemini⟩ "quota").1 = true ∧
    (handle_quota_error ⟨false, true, Provider.gemini⟩ "quota").2.current_provider
      = Provider.grok := by
  decide

/-- C1 (amended): `handle_quota_error` returns true exactly when the
lowercased message contains a quota indicator and the *other*
provider's key is configured, flipping `current_provider` in that case
and leaving the state unchanged otherwise; starting from gemini with
both keys, two quota errors flip to grok and back; and when the other
provider's key is not configured it never flips and always returns
false (regardless of how many keys are configured in total). -/
theorem handle_quota_error_spec :
    (∀ (st : APIManagerState) (msg : String),
      ((handle_quota_error st msg).1 = true ↔
        (isQuotaMessage msg = true ∧ otherKeyConfigured st = true)) ∧
      ((handle_quota_error st msg).1 = true →
        (handle_quota_error st msg).2 =
          { st with current_provider := otherProvider st.current_provider }) ∧
      ((handle_quota_error st msg).1 = false →
        (handle_quota_error st msg).2 = st) ∧
      (otherKeyConfigured st = false → handle_quota_error st msg = (false, st))) ∧
    (∀ (m₁ m₂ : String), isQuotaMessage m₁ = true → isQuotaMessage m₂ = true →
      (handle_quota_error ⟨true, true, Provider.gemini⟩ m₁) =
        (true, ⟨true, true, Provider.grok⟩) ∧
      (handle_quota_error ⟨true, true, Provider.grok⟩ m₂) =
        (true, ⟨true, true, Provider.gemini⟩)) := by
  constructor
  · intro st msg
    obtain ⟨gk, kk, cp⟩ := st
    cases cp <;> cases gk <;> cases kk <;>
      cases hq : quota_indicators.any (fun ind => strContains (strToLower msg) ind) <;>
        (simp only [handle_quota_error, isQuotaMessage, otherKeyConfigured,
          otherProvider, hq]; simp)
  · intro m₁ m₂ h₁ h₂
    simp only [isQuotaMessage] at h₁ h₂
    constructor <;>
      (simp only [handle_quota_error, otherKeyConfigured, otherProvider,
        h₁, h₂]; simp)

/-- C1 witness: the amended theorem applied at a concrete state and
message. -/
theorem handle_quota_error_spec_witness :
    (handle_quota_error ⟨true, true, Provider.gemini⟩ "Rate limit: 429") =
      (true, ⟨true, true, Provider.grok⟩) := by
  exact (handle_quota_error_spec.2 "Rate limit: 429" "quota"
    (by decide) (by decide)).1

/-- C2 counterexample: for a scenario with `expected_result =
"required_error"` and `actual_result = "validation_error"`, the code's
`_evaluate_test_result` falls through to its final `else` and returns
false, while the claim's table says the scenario passes. -/
theorem evaluate_test_result_required_error_counterexample :
    evaluate_test_result "required_error" "validation_error" = false ∧
    claimEvaluate "required_error" "validation_error" = true := by
  decide

/-- C2 (amended): `_evaluate_test_result` returns true exactly per the
claim's table *without* any case for expected `required_error`: an
expected `required_error` (like any expected value outside the four
handled ones) yields false for every actual result, including an exact
match. -/
theorem evaluate_test_result_spec :
    ∀ expected_result actual_result : String,
      evaluate_test_result expected_result actual_result = true ↔
        ((expected_result = "success" ∧ actual_result = "success") ∨
         (expected_result = "validation_error" ∧
           (actual_result = "validation_error" ∨ actual_result = "required_error")) ∨
         (expected_result = "security_error" ∧ actual_result = "security_error") ∨
         (expected_result = "authentication_error" ∧
           (actual_result = "validation_error" ∨
             actual_result = "authentication_error"))) := by
  intro e a
  unfold evaluate_test_result
  split_ifs with h1 h2 h3 h4 <;>
    simp_all [List.contains_cons, beq_iff_eq]

/-! ### List helper lemmas -/

theorem takeWhile_append_last_false {α} (p : α → Bool) (l : List α) (x : α)
    (h : p x = false) : (l ++ [x]).takeWhile p = l.takeWhile p := by
  induction l with
  | nil => simp [List.takeWhile_cons, h, List.takeWhile]
  | cons a l ih => by_cases ha : p a <;> simp [List.takeWhile_cons, ha, ih]

theorem takeWhile_append_of_mem_false {α} (p : α → Bool) (l l₂ : List α)
    (h : ∃ a ∈ l, p a = false) : (l ++ l₂).takeWhile p = l.takeWhile p := by
  induction l with
  | nil => simp at h
  | cons a l ih =>
    by_cases ha : p a
    · obtain ⟨b, hb, hpb⟩ := h
      rcases List.mem_cons.mp hb with rfl | hbl
      · rw [ha] at hpb; cases hpb
      · simp only [List.cons_append, List.takeWhile_cons, ha, if_pos]
        rw [ih ⟨b, hbl, hpb⟩]
    · simp [List.takeWhile_cons, ha]

theorem takeWhile_eq_self_of_all {α} (p : α → Bool) (l : List α)
    (h : ∀ a ∈ l, p a = true) : l.takeWhile p = l := by
  induction l with
  | nil => rfl
  | cons a l ih =>
    simp [List.takeWhile_cons, h a (List.mem_cons_self a l),
      ih (fun b hb => h b (List.mem_cons_of_mem a hb))]

theorem singleton_infix_iff {α} (a : α) (l : List α) : [a] <:+: l ↔ a ∈ l := by
  constructor
  · rintro ⟨s, t, rfl⟩; simp
  · intro h
    obtain ⟨s, t, rfl⟩ := List.append_of_mem h
    exact ⟨s, t, by simp⟩

theorem strContains_single (s : String) (a : Char) (pat : String)
    (hp : pat.toList = [a]) : strContains s pat = true ↔ a ∈ s.toList := by
  unfold strContains
  rw [hp, decide_eq_true_iff]
  exact singleton_infix_iff a s.toList

/-! ### splitChar lemmas -/

theorem splitChar_ne_nil (sep : Char) (l : List Char) : splitChar sep l ≠ [] := by
  cases l with
  | nil => simp [splitChar]
  | cons c cs =>
    simp only [splitChar]
    split
    · simp
    · cases h : splitChar sep cs <;> simp

theorem splitChar_of_not_mem (sep : Char) (l : List Char) (h : sep ∉ l) :
    splitChar sep l = [l] := by
  induction l with
  | nil => rfl
  | cons c cs ih =>
    have hc : ¬ c = sep := fun e => h (List.mem_cons.mpr (Or.inl e.symm))
    have hcs : sep ∉ cs := fun m => h (List.mem_cons_of_mem _ m)
    simp only [splitChar, if_neg hc, ih hcs]

theorem two_le_length_splitChar (sep : Char) (l : List Char) (h : sep ∈ l) :
    2 ≤ (splitChar sep l).length := by
  induction l with
  | nil => cases h
  | cons c cs ih =>
    simp only [splitChar]
    by_cases hc : c = sep
    · rw [if_pos hc]
      have h1 : 0 < (splitChar sep cs).length :=
        List.length_pos.mpr (splitChar_ne_nil sep cs)
      simp only [List.length_cons]
      omega
    · rw [if_neg hc]
      have hm : sep ∈ cs := by
        rcases List.mem_cons.mp h with e | hmem
        · exact absurd e.symm hc
        · exact hmem
      have h2 := ih hm
      cases hsc : splitChar sep cs with
      | nil => exact absurd hsc (splitChar_ne_nil sep cs)
      | cons q qs =>
        rw [hsc] at h2
        simpa using h2

theorem getLastD_splitChar (sep : Char) (l : List Char) (d : List Char) :
    (splitChar sep l).getLastD d =
      (l.reverse.takeWhile (fun c => !(c == sep))).reverse := by
  induction l generalizing d with
  | nil => rfl
  | cons c cs ih =>
    simp only [splitChar, List.reverse_cons]
    by_cases hc : c = sep
    · rw [if_pos hc, List.getLastD_cons, ih,
        takeWhile_append_last_false _ _ _ (by simp [hc])]
    · rw [if_neg hc]
      by_cases hm : sep ∈ cs
      · cases hsc : splitChar sep cs with
        | nil => exact absurd hsc (splitChar_ne_nil sep cs)
        | cons q qs =>
          have h2 := two_le_length_splitChar sep cs hm
          rw [hsc] at h2
          have hqs : qs ≠ [] := by
            intro e; subst e; simp at h2
          have hih := ih d
          rw [hsc, List.getLastD_cons] at hih
          rw [List.getLastD_cons]
          have hdef : qs.getLastD (c :: q) = qs.getLastD q := by
            cases qs with
            | nil => exact absurd rfl hqs
            | cons y ys => rw [List.getLastD_cons, List.getLastD_cons]
          rw [hdef, hih,
            takeWhile_append_of_mem_false _ cs.reverse [c]
              ⟨sep, by simpa using hm, by simp⟩]
      · rw [splitChar_of_not_mem sep cs hm]
        have hall : ∀ a ∈ cs.reverse ++ [c], (fun x => !(x == sep)) a = true := by
          intro a ha
          rcases List.mem_append.mp ha with h1 | h1
          · have : a ∈ cs := List.mem_reverse.mp h1
            simp only [Bool.not_eq_true']
            exact beq_eq_false_iff_ne.mpr (fun e => hm (e ▸ this))
          · have : a = c := by simpa using h1
            simp only [Bool.not_eq_true']
            exact beq_eq_false_iff_ne.mpr (this ▸ hc)
        rw [takeWhile_eq_self_of_all _ _ hall]
        simp [List.getLastD_cons]

/-- C6: `_validate_credentials(email, password)` is true exactly when
the email contains `@`, the part after the last `@` contains a dot, and
the password has at least 8 characters; with the three concrete
instances of the claim. -/
theorem validate_credentials_spec :
    (∀ email password : String,
      validate_credentials email password = true ↔
        ('@' ∈ email.toList ∧ '.' ∈ afterLastAt email.toList ∧
          8 ≤ password.length)) ∧
    validate_credentials "user@example.com" "LongEnough1" = true ∧
    validate_credentials "not-an-email" "LongEnough1" = false ∧
    validate_credentials "user@example.com" "short" = false := by
  refine ⟨?_, by decide, by decide, by decide⟩
  intro email password
  unfold validate_credentials
  have h1 : strContains email "@" = true ↔ '@' ∈ email.toList :=
    strContains_single email '@' "@" rfl
  have h2 : strContains
      (String.mk ((splitChar '@' email.toList).getLastD [])) "." = true ↔
      '.' ∈ afterLastAt email.toList := by
    rw [strContains_single _ '.' "." rfl]
    show '.' ∈ (splitChar '@' email.toList).getLastD [] ↔ _
    rw [getLastD_splitChar]
    exact Iff.rfl
  simp only [Bool.and_eq_true, decide_eq_true_iff, h1, h2, and_assoc]

/-- C7: `_determine_severity` maps the ten listed error types via the
fixed table and every other type to `medium`. -/
theorem determine_severity_spec :
    (determine_severity "javascript_error" = "high" ∧
     determine_severity "unhandled_promise_rejection" = "high" ∧
     determine_severity "network_error" = "high" ∧
     determine_severity "network_failure" = "high" ∧
     determine_severity "console_error" = "medium" ∧
     determine_severity "resource_error" = "medium" ∧
     determine_severity "fetch_error" = "medium" ∧
     determine_severity "xhr_error" = "medium" ∧
     determine_severity "console_warning" = "low" ∧
     determine_severity "performance_issue" = "low") ∧
    (∀ t : String, t ∉ severity_map.map Prod.fst →
      determine_severity t = "medium") := by
  refine ⟨by decide, ?_⟩
  intro t ht
  unfold determine_severity
  have hf : severity_map.find? (fun p => p.1 == t) = none := by
    rw [List.find?_eq_none]
    intro x hx
    simp only [beq_iff_eq]
    intro e
    exact ht (e ▸ List.mem_map_of_mem Prod.fst hx)
  rw [hf]
  rfl

/-- C7 witness: the default branch applied at a type outside the table. -/
theorem determine_severity_spec_witness :
    "dom_mutation" ∉ severity_map.map Prod.fst ∧
    determine_severity "dom_mutation" = "medium" :=
  ⟨by decide, determine_severity_spec.2 "dom_mutation" (by decide)⟩

/-- C9: `_analyze_credential_response` gives the success family
priority — any page text whose lowercase form contains a success
indicator yields `"success"` no matter what other families match — and
returns `"unknown"` exactly when no family matches. -/
theorem analyze_credential_response_spec :
    ∀ text : String,
      (success_indicators.any
          (fun ind => strContains (strToLower text) ind) = true →
        analyze_credential_response text = "success") ∧
      (analyze_credential_response text = "unknown" ↔
        (success_indicators.any
            (fun ind => strContains (strToLower text) ind) = false ∧
         validation_indicators.any
            (fun ind => strContains (strToLower text) ind) = false ∧
         security_indicators.any
            (fun ind => strContains (strToLower text) ind) = false ∧
         auth_indicators.any
            (fun ind => strContains (strToLower text) ind) = false)) := by
  intro text
  simp only [analyze_credential_response]
  cases h1 : success_indicators.any (fun ind => strContains (strToLower text) ind) <;>
  cases h2 : validation_indicators.any (fun ind => strContains (strToLower text) ind) <;>
  cases h3 : security_indicators.any (fun ind => strContains (strToLower text) ind) <;>
  cases h4 : auth_indicators.any (fun ind => strContains (strToLower text) ind) <;>
    simp [h1, h2, h3, h4]

/-- C9 witness: a page text containing a success indicator together
with validation ("invalid"), security ("script") and authentication
("not found") keywords is still classified `"success"`. -/
theorem analyze_credential_response_spec_witness :
    analyze_credential_response
      "Welcome! Invalid script: user not found" = "success" :=
  (analyze_credential_response_spec
    "Welcome! Invalid script: user not found").1 (by decide)

/-! ### TestReportGenerator lemmas -/

theorem add_finding_total (st : ReportState) (cat : Category)
    (t d sv : String) (lc : Option String) :
    (add_finding st cat t d sv lc).total_findings = st.total_findings + 1 :=
  rfl

theorem add_finding_len (st : ReportState) (cat : Category)
    (t d sv : String) (lc : Option String) (c : Category) :
    ((add_finding st cat t d sv lc).findings c).length =
      if c = cat then (st.findings c).length + 1 else (st.findings c).length := by
  simp only [add_finding]
  split
  · next h => rw [h]; simp
  · rfl

theorem sumFindings_add (st : ReportState) (cat : Category)
    (t d sv : String) (lc : Option String) :
    sumFindings (add_finding st cat t d sv lc) = sumFindings st + 1 := by
  cases cat <;>
    simp [sumFindings, allCategories, add_finding_len] <;> omega

theorem runFindings_total (calls : List FindingCall) :
    ∀ st : ReportState,
      (runFindings st calls).total_findings =
        st.total_findings + calls.length := by
  induction calls with
  | nil => intro st; rfl
  | cons k ks ih =>
    intro st
    simp only [runFindings, ih, add_finding_total, List.length_cons]
    omega

theorem runFindings_sum (calls : List FindingCall) :
    ∀ st : ReportState,
      sumFindings (runFindings st calls) = sumFindings st + calls.length := by
  induction calls with
  | nil => intro st; rfl
  | cons k ks ih =>
    intro st
    simp only [runFindings, ih, sumFindings_add, List.length_cons]
    omega

theorem runFindings_len (calls : List FindingCall) :
    ∀ (st : ReportState) (c : Category),
      ((runFindings st calls).findings c).length =
        (st.findings c).length +
          (calls.filter (fun k => k.category == c)).length := by
  induction calls with
  | nil => intro st c; rfl
  | cons k ks ih =>
    intro st c
    simp only [runFindings, ih, add_finding_len, List.filter_cons]
    by_cases h : k.category = c
    · rw [if_pos h.symm]
      simp [h, beq_iff_eq]
      omega
    · rw [if_neg (fun e => h e.symm)]
      simp [beq_iff_eq, h]

theorem ids_append (l : List Finding) (f : Finding)
    (hf : f.id = l.length + 1)
    (h : l.map Finding.id = List.range' 1 l.length) :
    (l ++ [f]).map Finding.id = List.range' 1 (l ++ [f]).length := by
  rw [List.map_append, h, List.length_append]
  simp only [List.map_cons, List.map_nil, hf, List.length_cons,
    List.length_nil]
  rw [List.range'_concat]
  simp [Nat.add_comm]

theorem runFindings_ids (calls : List FindingCall) :
    ∀ st : ReportState,
      (∀ c : Category, (st.findings c).map Finding.id =
        List.range' 1 (st.findings c).length) →
      ∀ c : Category,
        ((runFindings st calls).findings c).map Finding.id =
          List.range' 1 ((runFindings st calls).findings c).length := by
  induction calls with
  | nil => intro st h c; exact h c
  | cons k ks ih =>
    intro st h c
    refine ih _ ?_ c
    intro c'
    simp only [add_finding]
    split
    · exact ids_append _ _ rfl (h k.category)
    · exact h c'

/-- C4: for every sequence of `add_finding` calls (the `Category` type
restricts calls to the 13 initialized categories),
`summary['total_findings']` equals the total number of finding entries
across all categories, each category list has one entry per call made
with that category, and finding ids are the 1-based positions within
their category list. -/
theorem add_finding_spec :
    ∀ calls : List FindingCall,
      (runFindings initReport calls).total_findings =
        sumFindings (runFindings initReport calls) ∧
      ∀ c : Category,
        ((runFindings initReport calls).findings c).length =
          (calls.filter (fun k => k.category == c)).length ∧
        ((runFindings initReport calls).findings c).map Finding.id =
          List.range' 1 ((runFindings initReport calls).findings c).length := by
  intro calls
  refine ⟨?_, fun c => ⟨?_, ?_⟩⟩
  · rw [runFindings_total, runFindings_sum]
    rfl
  · rw [runFindings_len]
    simp [initReport]
  · exact runFindings_ids calls initReport (fun c => rfl) c

/-! ### add_finding KeyError lemmas -/

theorem dictLookup_eq_none_iff (m : List (String × List Finding))
    (k : String) : dictLookup m k = none ↔ k ∉ m.map Prod.fst := by
  unfold dictLookup
  cases hf : m.find? (fun p => p.1 == k) with
  | none =>
    rw [List.find?_eq_none] at hf
    refine iff_of_true rfl ?_
    intro hm
    obtain ⟨x, hx, hfst⟩ := List.mem_map.mp hm
    exact (hf x hx) (by simp [hfst])
  | some x =>
    have hx := List.find?_some hf
    have hmem := List.mem_of_find?_eq_some hf
    have hmem2 : k ∈ m.map Prod.fst :=
      beq_iff_eq.mp hx ▸ List.mem_map_of_mem Prod.fst hmem
    exact iff_of_false (by simp) (fun h => h hmem2)

/-- C10: `add_finding` on the string-keyed findings dict: from any
state whose keys are the 13 initialized categories (in particular any
state reachable from `__init__`, since success preserves the keys), a
call raises `KeyError` — returns `none` with no state produced, so no
list append and no `total_findings` increment happens — exactly when
the category is not among the 13; a successful call preserves the keys
and increments `total_findings` by one. -/
theorem add_finding_dyn_spec :
    (initReportS.findings.map Prod.fst = findings_categories) ∧
    (∀ (st : ReportStateS) (c t d sv : String) (lc : Option String),
      st.findings.map Prod.fst = findings_categories →
        (add_finding_dyn st c t d sv lc = none ↔
          c ∉ findings_categories)) ∧
    (∀ (st st' : ReportStateS) (c t d sv : String) (lc : Option String),
      add_finding_dyn st c t d sv lc = some st' →
        st'.findings.map Prod.fst = st.findings.map Prod.fst ∧
        st'.total_findings = st.total_findings + 1) := by
  refine ⟨by rfl, ?_, ?_⟩
  · intro st c t d sv lc hkeys
    have hiff := dictLookup_eq_none_iff st.findings c
    rw [hkeys] at hiff
    cases hdl : dictLookup st.findings c with
    | none =>
      simp only [add_finding_dyn, hdl]
      exact iff_of_true trivial (hiff.mp hdl)
    | some l =>
      simp only [add_finding_dyn, hdl]
      refine iff_of_false (by simp) (fun hc => ?_)
      cases (hiff.mpr hc).symm.trans hdl
  · intro st st' c t d sv lc h
    cases hdl : dictLookup st.findings c with
    | none => rw [add_finding_dyn, hdl] at h; cases h
    | some l =>
      rw [add_finding_dyn, hdl] at h
      cases h
      constructor
      · show (dictSet st.findings c _).map Prod.fst = _
        unfold dictSet
        rw [List.map_map]
        refine List.map_congr_left ?_
        intro p _
        show (if p.1 == c then (p.1, _) else p).1 = p.1
        split <;> rfl
      · rfl

/-- C10 witness: on the freshly initialized report, a category outside
the 13 yields the `KeyError` outcome. -/
theorem add_finding_dyn_spec_witness :
    add_finding_dyn initReportS "nonexistent_category" "t" "d" "low" none
      = none :=
  (add_finding_dyn_spec.2.1 initReportS "nonexistent_category" "t" "d"
    "low" none (by decide)).mpr (by decide)

/-- C5: on a field with `min_length = 5` and no `max_length`,
`_generate_boundary_scenarios` yields exactly the two min-boundary
scenarios (4 characters expecting `validation_error`, 5 characters
expecting `success`); with `max_length = 10` as well, exactly those two
plus the two max-boundary scenarios (10 characters expecting `success`,
11 characters expecting `validation_error`). -/
theorem generate_boundary_scenarios_spec :
    ∀ (ft nm ph : String) (req : Bool) (vp : Option String)
      (opts : List String),
      generate_boundary_scenarios
          ⟨ft, nm, ph, req, vp, some 5, none, opts⟩ =
        [⟨"Min Length - " ++ nm, [(nm, "aaaa")], "validation_error",
          "Test with length below minimum (4)", 1⟩,
         ⟨"Exact Min Length - " ++ nm, [(nm, "aaaaa")], "success",
          "Test with exact minimum length (5)", 1⟩] ∧
      generate_boundary_scenarios
          ⟨ft, nm, ph, req, vp, some 5, some 10, opts⟩ =
        [⟨"Min Length - " ++ nm, [(nm, "aaaa")], "validation_error",
          "Test with length below minimum (4)", 1⟩,
         ⟨"Exact Min Length - " ++ nm, [(nm, "aaaaa")], "success",
          "Test with exact minimum length (5)", 1⟩,
         ⟨"Exact Max Length - " ++ nm, [(nm, "aaaaaaaaaa")], "success",
          "Test with exact maximum length (10)", 1⟩,
         ⟨"Exceed Max Length - " ++ nm, [(nm, "aaaaaaaaaaa")],
          "validation_error",
          "Test with length exceeding maximum (11)", 1⟩] := by
  intro ft nm ph req vp opts
  constructor <;>
    (simp only [generate_boundary_scenarios, truthyNat]
     norm_num
     all_goals decide)

/-- C3 counterexample: a link returning HTTP 301 whose redirect target
answers 200 yields *no* result at all — `requests.get` is called with
`allow_redirects=True`, so `response.status_code` is the final 200 and
neither the `>= 400` nor the `>= 300` branch fires — while the claim
says it yields a WARNING result. -/
theorem check_broken_urls_redirect_counterexample :
    srv301 "https://site.example/old" =
      HttpAnswer.ans 301 (some "https://site.example/new") ∧
    srv301 "https://site.example/new" = HttpAnswer.ans 200 none ∧
    requestsGet srv301 30 "https://site.example/old" =
      Except.ok (200, "https://site.example/new") ∧
    check_broken_urls "https://site.example/"
      [⟨some "https://site.example/old", "old link"⟩] srv301 = [] := by
  refine ⟨by decide, by decide, by rfl, by decide⟩

/-- C3 (amended): for a single probed link — final status ≥ 400 gives
the FAILED "Broken URL" result recording that literal status; a final
status in 300–399 (after redirects are followed, so *not* a 301 that
resolves to 200) gives the WARNING "Redirect URL" result; a raised
request exception gives the FAILED "Unreachable URL" result whose
details carry the exception text; fragment-only and non-HTTP hrefs are
skipped; root-relative hrefs are resolved against the page origin. -/
theorem check_broken_urls_spec :
    ∀ (pageUrl text href : String) (server : String → HttpAnswer),
      (∀ status final, href ≠ "" → strStartsWith href "/" = false →
        strStartsWith href "#" = false → strStartsWith href "http" = true →
        requestsGet server 30 href = Except.ok (status, final) →
        400 ≤ status →
        check_broken_urls pageUrl [⟨some href, text⟩] server =
          [{ test_name := "Broken URL", status := "FAILED",
             description := "Broken URL found: " ++ href,
             url := href, status_code := some status,
             redirect_url := none, error := none,
             link_text := linkTextOr text }]) ∧
      (∀ status final, href ≠ "" → strStartsWith href "/" = false →
        strStartsWith href "#" = false → strStartsWith href "http" = true →
        requestsGet server 30 href = Except.ok (status, final) →
        300 ≤ status → status < 400 →
        check_broken_urls pageUrl [⟨some href, text⟩] server =
          [{ test_name := "Redirect URL", status := "WARNING",
             description := "URL redirects: " ++ href,
             url := href, status_code := some status,
             redirect_url := some final, error := none,
             link_text := linkTextOr text }]) ∧
      (∀ e, href ≠ "" → strStartsWith href "/" = false →
        strStartsWith href "#" = false → strStartsWith href "http" = true →
        requestsGet server 30 href = Except.error e →
        check_broken_urls pageUrl [⟨some href, text⟩] server =
          [{ test_name := "Unreachable URL", status := "FAILED",
             description := "Unreachable URL: " ++ href,
             url := href, status_code := none, redirect_url := none,
             error := some e, link_text := linkTextOr text }]) ∧
      (href ≠ "" → strStartsWith href "/" = false →
        strStartsWith href "#" = true →
        check_broken_urls pageUrl [⟨some href, text⟩] server = []) ∧
      (href ≠ "" → strStartsWith href "/" = false →
        strStartsWith href "#" = false → strStartsWith href "http" = false →
        check_broken_urls pageUrl [⟨some href, text⟩] server = []) ∧
      (href ≠ "" → strStartsWith href "/" = true →
        check_broken_urls pageUrl [⟨some href, text⟩] server =
          probeUrl server (pageOrigin pageUrl ++ href) text) := by
  intro pageUrl text href server
  refine ⟨?_, ?_, ?_, ?_, ?_, ?_⟩
  · intro status final h0 h1 h2 h3 hreq hs
    simp [check_broken_urls, check_link, h0, h1, h2, h3, probeUrl, hreq, hs]
  · intro status final h0 h1 h2 h3 hreq hs1 hs2
    simp [check_broken_urls, check_link, h0, h1, h2, h3, probeUrl, hreq,
      Nat.not_le.mpr hs2, hs1]
  · intro e h0 h1 h2 h3 hreq
    simp [check_broken_urls, check_link, h0, h1, h2, h3, probeUrl, hreq]
  · intro h0 h1 h2
    simp [check_broken_urls, check_link, h0, h1, h2]
  · intro h0 h1 h2 h3
    simp [check_broken_urls, check_link, h0, h1, h2, h3]
  · intro h0 h1
    simp [check_broken_urls, check_link, h0, h1]

/-- C3 witness: the amended theorem applied to a concrete 404 link. -/
theorem check_broken_urls_spec_witness :
    check_broken_urls "https://site.example/"
      [⟨some "https://site.example/missing", "dead"⟩]
      (fun _ => HttpAnswer.ans 404 none) =
      [{ test_name := "Broken URL", status := "FAILED",
         description := "Broken URL found: https://site.example/missing",
         url := "https://site.example/missing", status_code := some 404,
         redirect_url := none, error := none, link_text := "dead" }] := by
  have h := (check_broken_urls_spec "https://site.example/" "dead"
    "https://site.example/missing" (fun _ => HttpAnswer.ans 404 none)).1
    404 "https://site.example/missing" (by decide) (by decide) (by decide)
    (by decide) (by rfl) (by decide)
  simpa [linkTextOr] using h

/-! ### Rational-rate lemmas -/

theorem div_lt_const_iff (a b m k : ℕ) (hb : 0 < b) (hk : 0 < k)
    (c : ℚ) (hc : c = (m : ℚ) / (k : ℚ)) :
    ((a : ℚ) / (b : ℚ) < c) ↔ k * a < m * b := by
  have hb' : (0:ℚ) < (b:ℚ) := by exact_mod_cast hb
  have hk' : (0:ℚ) < (k:ℚ) := by exact_mod_cast hk
  rw [hc, div_lt_div_iff₀ hb' hk', mul_comm (a:ℚ) (k:ℚ)]
  exact_mod_cast Iff.rfl

theorem const_lt_div_iff (a b m k : ℕ) (hb : 0 < b) (hk : 0 < k)
    (c : ℚ) (hc : c = (m : ℚ) / (k : ℚ)) :
    (c < (a : ℚ) / (b : ℚ)) ↔ m * b < k * a := by
  have hb' : (0:ℚ) < (b:ℚ) := by exact_mod_cast hb
  have hk' : (0:ℚ) < (k:ℚ) := by exact_mod_cast hk
  rw [hc, div_lt_div_iff₀ hk' hb', mul_comm (a:ℚ) (k:ℚ)]
  exact_mod_cast Iff.rfl

theorem rate_if_lt_iff (l : List CredentialTestResult)
    (p : CredentialTestResult → Bool) (m k : ℕ) (hm : 0 < m) (hk : 0 < k)
    (c : ℚ) (hc : c = (m : ℚ) / (k : ℚ)) :
    ((if !l.isEmpty then ((l.filter p).length : ℚ) / (l.length : ℚ) else 0)
        < c) ↔
      (l.isEmpty || decide (k * (l.filter p).length < m * l.length)) = true := by
  cases hl : l.isEmpty with
  | true =>
    have hpos : (0:ℚ) < c := by
      rw [hc]
      apply div_pos <;> exact_mod_cast ‹_›
    simp [hl, hpos]
  | false =>
    have hlen : 0 < l.length := by
      cases l with
      | nil => simp at hl
      | cons x xs => simp
    have hx := div_lt_const_iff ((l.filter p).length) (l.length) m k hlen hk c hc
    simp [hl, hx]

theorem sec_branch_eq (rs : List CredentialTestResult) :
    (if !(rs.filter (fun r => r.credential_set.category == "security_test")).isEmpty then
      (if (0.3 : ℚ) <
          (((rs.filter (fun r => r.credential_set.category == "security_test")).filter
              (fun r => r.success)).length : ℚ) /
            ((rs.filter (fun r => r.credential_set.category == "security_test")).length : ℚ)
        then [secWarn] else [])
     else []) = (if secWarnCond rs then [secWarn] else []) := by
  cases hS : (rs.filter (fun r => r.credential_set.category == "security_test")).isEmpty with
  | true => simp [hS, secWarnCond]
  | false =>
    have hlen : 0 <
        (rs.filter (fun r => r.credential_set.category == "security_test")).length := by
      apply List.length_pos.mpr
      intro e
      rw [e] at hS
      simp at hS
    have hx := const_lt_div_iff
      (((rs.filter (fun r => r.credential_set.category == "security_test")).filter
          (fun r => r.success)).length)
      ((rs.filter (fun r => r.credential_set.category == "security_test")).length)
      3 10 hlen (by norm_num) 0.3 (by norm_num)
    simp only [hS, Bool.not_false, Bool.true_and, if_true, secWarnCond, hx,
      decide_eq_true_eq]

/-- C8 (amended): for every non-empty result list, the warnings appear
exactly under these conditions — the valid-credential warning when
there are *no* valid-credential results (the ternary's rate is 0) or
fewer than half of them succeed; the rejection warning when there are
*no* invalid-credential results or fewer than 80% of them are
unsuccessful; the sanitization warning when security_test results exist
and more than 30% succeed; the unknown-response warning when some
response_type is "unknown"; and the all-good message exactly when none
of these hold. -/
theorem generate_credential_recommendations_spec :
    ∀ rs : List CredentialTestResult, rs ≠ [] →
      (validWarn ∈ generate_credential_recommendations rs ↔
        validWarnCond rs = true) ∧
      (rejWarn ∈ generate_credential_recommendations rs ↔
        rejWarnCond rs = true) ∧
      (secWarn ∈ generate_credential_recommendations rs ↔
        secWarnCond rs = true) ∧
      (unkWarn ∈ generate_credential_recommendations rs ↔
        unkWarnCond rs = true) ∧
      (generate_credential_recommendations rs = [allGood] ↔
        (validWarnCond rs = false ∧ rejWarnCond rs = false ∧
          secWarnCond rs = false ∧ unkWarnCond rs = false)) := by
  intro rs hrs
  have hne : rs.isEmpty = false := by
    cases rs with
    | nil => exact absurd rfl hrs
    | cons a l => rfl
  have E1 := rate_if_lt_iff (rs.filter (fun r => r.credential_set.is_valid))
    (fun r => r.success) 1 2 (by norm_num) (by norm_num) 0.5 (by norm_num)
  simp only [Nat.one_mul] at E1
  have E2 := rate_if_lt_iff (rs.filter (fun r => !r.credential_set.is_valid))
    (fun r => !r.success) 4 5 (by norm_num) (by norm_num) 0.8 (by norm_num)
  have E3 := sec_branch_eq rs
  have hgen : generate_credential_recommendations rs =
      (if ((if validWarnCond rs then [validWarn] else []) ++
            (if rejWarnCond rs then [rejWarn] else []) ++
            (if secWarnCond rs then [secWarn] else []) ++
            (if unkWarnCond rs then [unkWarn] else [])).isEmpty then
        [allGood]
      else
        (if validWarnCond rs then [validWarn] else []) ++
          (if rejWarnCond rs then [rejWarn] else []) ++
          (if secWarnCond rs then [secWarn] else []) ++
          (if unkWarnCond rs then [unkWarn] else [])) := by
    simp only [generate_credential_recommendations, hne, Bool.false_eq_true,
      if_false, E1, E2, E3, validWarnCond, rejWarnCond, unkWarnCond]
  cases h1 : validWarnCond rs <;> cases h2 : rejWarnCond rs <;>
    cases h3 : secWarnCond rs <;> cases h4 : unkWarnCond rs <;>
      simp [hgen, h1, h2, h3, h4, validWarn, rejWarn, secWarn, unkWarn,
        allGood]

/-- C8 counterexample: a single valid, successful credential result —
no condition of the claim holds (in particular there are zero
invalid-credential results, and "fewer than 80% of zero results are
unsuccessful" is false) — yet the code emits the rejection warning
instead of the all-good message: the ternary gives the empty invalid
bucket a rejection rate of 0, and 0 < 0.8. -/
theorem generate_credential_recommendations_counterexample :
    ([⟨⟨"valid_user", "valid@example.com", "password123", "demo",
        true, "valid", 0⟩, true, "success", none⟩] :
      List CredentialTestResult).filter
        (fun r => !r.credential_set.is_valid) = [] ∧
    generate_credential_recommendations
      [⟨⟨"valid_user", "valid@example.com", "password123", "demo",
        true, "valid", 0⟩, true, "success", none⟩] = [rejWarn] := by
  constructor
  · rfl
  · norm_num [generate_credential_recommendations]
    exact ⟨fun h => absurd h (by decide), by decide⟩

/-- C8 witness: a well-behaved pair of results (valid credentials
succeed, invalid ones are rejected) yields exactly the all-good
message, by the amended theorem. -/
theorem generate_credential_recommendations_spec_witness :
    generate_credential_recommendations
      [⟨⟨"valid_user", "valid@example.com", "password123", "demo",
        true, "valid", 0⟩, true, "success", none⟩,
       ⟨⟨"invalid_user", "bad@example.com", "wrongpass1", "demo",
        false, "invalid", 0⟩, false, "validation_error", none⟩] =
      [allGood] :=
  ((generate_credential_recommendations_spec
      [⟨⟨"valid_user", "valid@example.com", "password123", "demo",
        true, "valid", 0⟩, true, "success", none⟩,
       ⟨⟨"invalid_user", "bad@example.com", "wrongpass1", "demo",
        false, "invalid", 0⟩, false, "validation_error", none⟩]
      (by decide)).2.2.2.2).mpr ⟨by decide, by decide, by decide, by decide⟩
